import Mathlib

/-!
Shallow embedding of the book lending lifecycle and catalogue query contract
of the Library-management-website repository.

Sources embedded:
- src/models/Book.js: the Book schema (lending-related fields and defaults) and
  the instance methods borrowBook, returnBook, renewBook.
- src/controllers/booksController.js: getAllBooks, createBook, borrowBook,
  returnBook, renewBook.

Modelling conventions:
- Timestamps are Nat milliseconds; the JS idiom
  date.setDate(date.getDate() + n) is modelled as adding n * msPerDay.
- JS undefined request fields are Option.none; the JS default-parameter and
  mongoose schema defaults are applied with Option.getD exactly where the
  source applies them.
- The document store is a list of (id, Book) pairs; mongoose save/findById/
  findByIdAndUpdate become explicit store passing. Controller handlers return
  the (possibly updated) store together with a structured result; the HTTP
  error strings of the controller are represented by the error kinds of the
  specification (NotFound, InvalidInput, NotAvailable, NotBorrowed,
  RenewalLimitExceeded, DuplicateISBN, ValidationFailed).
- Catalogue fields inert to every claim (coverUrl, coverImage, publishedYear,
  rating, totalReviews, tags, isNewRelease, updatedAt) are omitted from the
  record; all lending fields, classification fields and createdAt are kept.
-/

/-- Milliseconds in one day: the granularity of the JS date arithmetic used by
borrowBook and renewBook. -/
def msPerDay : Nat := 86400000

/-- The status enum of bookSchema: ['Available', 'Borrowed', 'Reserved',
'Checked Out']. -/
inductive Status where
  | available
  | borrowed
  | reserved
  | checkedOut
deriving DecidableEq, Repr

/-- The borrowedBy sub-document of bookSchema: userId, name, email. -/
structure Borrower where
  userId : String
  name : String
  email : String
deriving DecidableEq, Repr

/-- One Book document, per bookSchema in src/models/Book.js (lending and
classification fields; inert catalogue fields omitted, see file header).
Absent optional paths are none. createdAt is the mongoose timestamps field
used by the sort in getAllBooks. -/
structure Book where
  title : String
  author : String
  description : Option String
  genre : String
  category : String
  isbn : Option String
  available : Bool
  status : Status
  borrowedBy : Option Borrower
  borrowedAt : Option Nat
  dueDate : Option Nat
  borrowDate : Option Nat
  renewalCount : Nat
  maxRenewals : Nat
  createdAt : Nat
deriving DecidableEq, Repr

/-- bookSchema.methods.borrowBook(userId, userName, userEmail, weeks = 3):
sets available=false, status='Borrowed', borrowedBy, borrowedAt/borrowDate to
now, dueDate to now + weeks*7 days. weeks is none when the caller passed
undefined, in which case the JS default parameter 3 applies. -/
def Book.borrowBook (b : Book) (userId userName userEmail : String)
    (weeks : Option Nat) (now : Nat) : Book :=
  { b with
    available := false
    status := Status.borrowed
    borrowedBy := some ⟨userId, userName, userEmail⟩
    borrowedAt := some now
    borrowDate := some now
    dueDate := some (now + (weeks.getD 3) * 7 * msPerDay) }

/-- bookSchema.methods.returnBook(): sets available=true, status='Available',
clears borrowedBy, borrowedAt, borrowDate, dueDate, resets renewalCount=0. -/
def Book.returnBook (b : Book) : Book :=
  { b with
    available := true
    status := Status.available
    borrowedBy := none
    borrowedAt := none
    borrowDate := none
    dueDate := none
    renewalCount := 0 }

/-- The two errors thrown by bookSchema.methods.renewBook:
limitReached is the Error whose message is the maximum-renewal-limit message,
notBorrowed the Error for renewing a book that is not borrowed. -/
inductive RenewErr where
  | limitReached
  | notBorrowed
deriving DecidableEq, Repr

/-- bookSchema.methods.renewBook(weeks = 2): throws if
renewalCount >= maxRenewals, then throws if dueDate is absent, otherwise
advances dueDate by weeks*7 days and increments renewalCount. weeks is none
when the caller passed undefined, in which case the JS default parameter 2
applies. -/
def Book.renewBook (b : Book) (weeks : Option Nat) : Except RenewErr Book :=
  if b.maxRenewals ≤ b.renewalCount then
    Except.error RenewErr.limitReached
  else
    match b.dueDate with
    | none => Except.error RenewErr.notBorrowed
    | some d =>
        Except.ok { b with
          dueDate := some (d + (weeks.getD 2) * 7 * msPerDay)
          renewalCount := b.renewalCount + 1 }

/-- The document store: one record per Book, keyed by an opaque id. -/
abbrev Store := List (Nat × Book)

/-- Book.findById: the record with the given id, if any. -/
def findBook : Store → Nat → Option Book
  | [], _ => none
  | (i, b) :: rest, id => if i = id then some b else findBook rest id

/-- document.save() after mutating a fetched record: replaces the record with
the given id, leaving every other record unchanged. -/
def saveBook : Store → Nat → Book → Store
  | [], _, _ => []
  | (i, b) :: rest, id, nb =>
      if i = id then (i, nb) :: rest else (i, b) :: saveBook rest id nb

/-- The structured error kinds surfaced by the controller handlers in
src/controllers/booksController.js, named as in the specification. -/
inductive ApiErr where
  | notFound
  | invalidInput
  | validationFailed
  | duplicateIsbn
  | notAvailable
  | notBorrowed
  | renewalLimitExceeded
deriving DecidableEq, Repr

/-- Drop leading whitespace characters from a character list. -/
def trimChars : List Char → List Char
  | [] => []
  | c :: cs => if c.isWhitespace then trimChars cs else c :: cs

/-- The JS String.prototype.trim applied by the mongoose trim option on the
string paths of bookSchema: strip whitespace from both ends. Defined by
structural recursion over the character list so that concrete instances
evaluate. -/
def strTrim (s : String) : String :=
  ⟨(trimChars (trimChars s.data).reverse).reverse⟩

namespace booksController

/-- The body of POST /api/books as far as the embedded fields go; absent
fields are none. -/
structure CreateReq where
  title : Option String
  author : Option String
  description : Option String
  genre : Option String
  category : Option String
  isbn : Option String
  available : Option Bool
  status : Option Status
  borrowedBy : Option Borrower
  borrowedAt : Option Nat
  dueDate : Option Nat
  borrowDate : Option Nat
  renewalCount : Option Nat
  maxRenewals : Option Nat
deriving DecidableEq, Repr

/-- Book.create(req.body): mongoose builds the document from the supplied
fields, trimming the trimmed string paths and applying the schema defaults
(genre/category 'General', available true, status 'Available',
renewalCount 0, maxRenewals 2) exactly to the absent fields; createdAt is set
to now by the timestamps option. -/
def mkBook (r : CreateReq) (now : Nat) : Book :=
  { title := strTrim (r.title.getD "")
    author := strTrim (r.author.getD "")
    description := r.description.map strTrim
    genre := (r.genre.map strTrim).getD "General"
    category := (r.category.map strTrim).getD "General"
    isbn := r.isbn.map strTrim
    available := r.available.getD true
    status := r.status.getD Status.available
    borrowedBy := r.borrowedBy
    borrowedAt := r.borrowedAt
    dueDate := r.dueDate
    borrowDate := r.borrowDate
    renewalCount := r.renewalCount.getD 0
    maxRenewals := r.maxRenewals.getD 2
    createdAt := now }

/-- exports.createBook: rejects a falsy title or author with the
please-provide message (InvalidInput); mongoose validation then rejects a
title or author that trims to empty (the required validators) and an
over-length title, author or description (the maxlength 200/100/1000
validators of bookSchema) with ValidationFailed, before any insert; the
unique sparse index on isbn makes the insert fail with code 11000 when
another record holds the same present isbn value, which the controller maps
to the duplicate-ISBN message; otherwise the document is inserted under a
fresh id. -/
def createBook (store : Store) (r : CreateReq) (now nextId : Nat) :
    Store × Except ApiErr Book :=
  if r.title.getD "" = "" ∨ r.author.getD "" = "" then
    (store, Except.error ApiErr.invalidInput)
  else
    let b := mkBook r now
    if b.title = "" ∨ b.author = "" ∨ 200 < b.title.length ∨
        100 < b.author.length ∨ 1000 < (b.description.getD "").length then
      (store, Except.error ApiErr.validationFailed)
    else
      match b.isbn with
      | some s =>
          if store.any (fun p => p.2.isbn = some s) then
            (store, Except.error ApiErr.duplicateIsbn)
          else
            (store ++ [(nextId, b)], Except.ok b)
      | none => (store ++ [(nextId, b)], Except.ok b)

/-- The body of POST /api/books/:id/borrow; absent fields are none. -/
structure BorrowReq where
  userId : Option String
  userName : Option String
  userEmail : Option String
  weeks : Option Nat
deriving DecidableEq, Repr

/-- exports.borrowBook: rejects a falsy userId, userName or userEmail
(InvalidInput), then an unresolved id (NotFound), then a record with
available false (NotAvailable); otherwise applies the borrowBook instance
method and saves. -/
def borrowBook (store : Store) (id : Nat) (r : BorrowReq) (now : Nat) :
    Store × Except ApiErr Book :=
  if r.userId.getD "" = "" ∨ r.userName.getD "" = "" ∨ r.userEmail.getD "" = "" then
    (store, Except.error ApiErr.invalidInput)
  else
    match findBook store id with
    | none => (store, Except.error ApiErr.notFound)
    | some b =>
        if b.available = false then
          (store, Except.error ApiErr.notAvailable)
        else
          let b2 := b.borrowBook (r.userId.getD "") (r.userName.getD "")
            (r.userEmail.getD "") r.weeks now
          (saveBook store id b2, Except.ok b2)

/-- exports.returnBook: rejects an unresolved id (NotFound), then a record
with available true (NotBorrowed); otherwise applies the returnBook instance
method and saves. -/
def returnBook (store : Store) (id : Nat) : Store × Except ApiErr Book :=
  match findBook store id with
  | none => (store, Except.error ApiErr.notFound)
  | some b =>
      if b.available then
        (store, Except.error ApiErr.notBorrowed)
      else
        let b2 := b.returnBook
        (saveBook store id b2, Except.ok b2)

/-- exports.renewBook: rejects an unresolved id (NotFound); otherwise applies
the renewBook instance method, surfacing its thrown errors as
RenewalLimitExceeded and NotBorrowed, and saves on success. weeks comes from
the request body and is none when the body omits it. -/
def renewBook (store : Store) (id : Nat) (weeks : Option Nat) :
    Store × Except ApiErr Book :=
  match findBook store id with
  | none => (store, Except.error ApiErr.notFound)
  | some b =>
      match b.renewBook weeks with
      | Except.error RenewErr.limitReached =>
          (store, Except.error ApiErr.renewalLimitExceeded)
      | Except.error RenewErr.notBorrowed =>
          (store, Except.error ApiErr.notBorrowed)
      | Except.ok b2 => (saveBook store id b2, Except.ok b2)

/-- The optional query-string filters of GET /api/books; absent parameters
are none. Query-string values arrive as strings, including available. -/
structure ListFilters where
  q : Option String
  category : Option String
  genre : Option String
  available : Option String
  status : Option String
deriving DecidableEq, Repr

/-- The query object built by exports.getAllBooks before Book.find: each
field is a constraint present only when the corresponding filter was added
to the object. -/
structure Query where
  text : Option String
  category : Option String
  genre : Option String
  available : Option Bool
  status : Option String
deriving DecidableEq, Repr

/-- Modelled from the spec: the MongoDB text-search operator backing the text
index over title, author and description declared in src/models/Book.js. The
operator itself runs inside the database, outside this repository; following
the free-text-search wording of the specification, a document matches when
some whitespace-separated term of the search string occurs as a word of the
title, the author or the description. -/
def textMatch (s : String) (b : Book) : Bool :=
  (s.splitOn " ").any fun w =>
    (!w.isEmpty) &&
      ((b.title.splitOn " ").contains w ||
       (b.author.splitOn " ").contains w ||
       (((b.description.getD "").splitOn " ").contains w))

/-- The string form of a stored status value, as compared against the status
query parameter. -/
def statusStr : Status → String
  | Status.available => "Available"
  | Status.borrowed => "Borrowed"
  | Status.reserved => "Reserved"
  | Status.checkedOut => "Checked Out"

/-- The query-building block of exports.getAllBooks: a truthy q adds a text
constraint, truthy category/genre/status add exact-match constraints, and a
defined available parameter adds the boolean constraint
(available === the string true). -/
def buildQuery (f : ListFilters) : Query :=
  let query : Query := ⟨none, none, none, none, none⟩
  let query := if f.q.getD "" ≠ "" then { query with text := f.q } else query
  let query :=
    if f.category.getD "" ≠ "" then { query with category := f.category } else query
  let query := if f.genre.getD "" ≠ "" then { query with genre := f.genre } else query
  let query :=
    match f.available with
    | none => query
    | some s => { query with available := some (s = "true") }
  let query := if f.status.getD "" ≠ "" then { query with status := f.status } else query
  query

/-- Book.find(query): a record matches when it satisfies every constraint
present in the query object. -/
def matchesQuery (qy : Query) (b : Book) : Bool :=
  (match qy.text with | none => true | some s => textMatch s b) &&
  (match qy.category with | none => true | some c => b.category = c) &&
  (match qy.genre with | none => true | some g => b.genre = g) &&
  (match qy.available with | none => true | some v => b.available = v) &&
  (match qy.status with | none => true | some s => statusStr b.status = s)

/-- Insert a book into a list sorted by createdAt descending, keeping the
descending order. -/
def insertDesc (b : Book) : List Book → List Book
  | [] => [b]
  | c :: cs =>
      if c.createdAt ≤ b.createdAt then b :: c :: cs else c :: insertDesc b cs

/-- .sort({ createdAt: -1 }): sort by createdAt descending. -/
def sortDesc : List Book → List Book
  | [] => []
  | b :: bs => insertDesc b (sortDesc bs)

/-- exports.getAllBooks: build the query from the filters, find the matching
records, sort them by createdAt descending, and return count = number of
returned records together with the records. -/
def getAllBooks (store : Store) (f : ListFilters) : Nat × List Book :=
  let qy := buildQuery f
  let books := sortDesc ((store.filter fun p => matchesQuery qy p.2).map Prod.snd)
  (books.length, books)

end booksController

/-! ## The lending-state agreement invariant (spec section 3) -/

/-- The three encodings of lending state agree: available is true iff status
is Available iff borrowedBy, borrowedAt and dueDate are all absent. -/
def lendInvariant (b : Book) : Prop :=
  (b.available = true ↔ b.status = Status.available) ∧
  (b.available = true ↔ (b.borrowedBy = none ∧ b.borrowedAt = none ∧ b.dueDate = none))

instance (b : Book) : Decidable (lendInvariant b) := by
  unfold lendInvariant
  exact inferInstance

/-! ## Concrete fixtures used by counterexamples and witnesses -/

/-- A creation request body with every field absent. -/
def emptyCreateReq : booksController.CreateReq :=
  ⟨none, none, none, none, none, none, none, none, none, none, none, none, none, none⟩

/-- A freshly created catalogue record in the Available state with all schema
defaults. -/
def sampleBook : Book :=
  { title := "1984"
    author := "George Orwell"
    description := none
    genre := "General"
    category := "General"
    isbn := none
    available := true
    status := Status.available
    borrowedBy := none
    borrowedAt := none
    dueDate := none
    borrowDate := none
    renewalCount := 0
    maxRenewals := 2
    createdAt := 0 }

/-- sampleBook after a borrow at time 5 with the default three-week loan. -/
def sampleBorrowed : Book := sampleBook.borrowBook "u1" "Ann" "ann@example.com" none 5

/-- sampleBorrowed after one renewal with the default two-week extension. -/
def sampleRenewed : Book :=
  { sampleBorrowed with
    dueDate := some (5 + 3 * 7 * msPerDay + 2 * 7 * msPerDay)
    renewalCount := 1 }

/-! ## C6: initial state of a created book -/

/-- A creation request that explicitly supplies available=false, as the
one-time migration route does for already-borrowed titles. -/
def c6req : booksController.CreateReq :=
  { emptyCreateReq with
    title := some "To Kill a Mockingbird"
    author := some "Harper Lee"
    available := some false }

/-- C6 counterexample: a creation request supplying available=false succeeds
and produces a book whose available field is false, so a created book does
not start with available=true regardless of the fields supplied. -/
theorem createBook_initial_state_counterexample :
    (booksController.createBook [] c6req 0 1).2 =
      Except.ok (booksController.mkBook c6req 0) ∧
    (booksController.mkBook c6req 0).available = false := by
  constructor
  · rfl
  · rfl

/-- C6 (amended): a book produced by the Create operation starts with
available=true, status Available and renewalCount=0 whenever the creation
request does not itself supply the available, status or renewalCount fields;
supplied values are passed through to the created record. -/
theorem createBook_initial_state (store : Store) (r : booksController.CreateReq)
    (now nextId : Nat) (b : Book)
    (hav : r.available = none) (hst : r.status = none) (hrc : r.renewalCount = none)
    (hok : (booksController.createBook store r now nextId).2 = Except.ok b) :
    b.available = true ∧ b.status = Status.available ∧ b.renewalCount = 0 := by
  unfold booksController.createBook at hok
  split at hok
  · simp at hok
  · simp only [] at hok
    split at hok
    · simp at hok
    · split at hok
      · split at hok
        · simp at hok
        · simp only [Except.ok.injEq] at hok
          subst hok
          simp [booksController.mkBook, hav, hst, hrc]
      · simp only [Except.ok.injEq] at hok
        subst hok
        simp [booksController.mkBook, hav, hst, hrc]

/-- A well-formed creation request leaving all lending fields to their
defaults. -/
def c6wreq : booksController.CreateReq :=
  { emptyCreateReq with
    title := some "Dune"
    author := some "Frank Herbert" }

/-- Witness for C6 (amended) at a concrete creation request. -/
theorem createBook_initial_state_witness :
    (booksController.mkBook c6wreq 0).available = true ∧
    (booksController.mkBook c6wreq 0).status = Status.available ∧
    (booksController.mkBook c6wreq 0).renewalCount = 0 :=
  createBook_initial_state [] c6wreq 0 1 (booksController.mkBook c6wreq 0)
    rfl rfl rfl rfl

/-! ## C1: agreement of the three lending-state encodings -/

/-- A creation request whose body supplies available=false while leaving
status to its Available default. -/
def c1req : booksController.CreateReq :=
  { emptyCreateReq with
    title := some "The Great Gatsby"
    author := some "F. Scott Fitzgerald"
    available := some false }

/-- C1 counterexample: creation is one of the points the claim covers, and a
creation request supplying available=false (as the migration data does)
succeeds while producing a record with available=false and status Available,
so the three encodings do not agree at creation. -/
theorem lending_agreement_counterexample :
    (booksController.createBook [] c1req 0 1).2 =
      Except.ok (booksController.mkBook c1req 0) ∧
    ¬ lendInvariant (booksController.mkBook c1req 0) := by
  constructor
  · rfl
  · decide

/-- C1 (amended): Borrow and Return always establish the agreement of the
three lending-state encodings, a successful Renew preserves it, and creation
establishes it when the request supplies none of the lending fields; a
creation request that supplies lending fields explicitly can break it. -/
theorem lending_agreement_after_transitions (b b2 : Book)
    (uid un ue : String) (w w2 : Option Nat) (now now2 : Nat)
    (store : Store) (r : booksController.CreateReq) (nextId : Nat) (c : Book) :
    lendInvariant (b.borrowBook uid un ue w now) ∧
    lendInvariant b.returnBook ∧
    (b.renewBook w2 = Except.ok b2 → lendInvariant b → lendInvariant b2) ∧
    (r.available = none → r.status = none → r.borrowedBy = none →
      r.borrowedAt = none → r.dueDate = none →
      (booksController.createBook store r now2 nextId).2 = Except.ok c →
      lendInvariant c) := by
  refine ⟨?_, ?_, ?_, ?_⟩
  · simp [lendInvariant, Book.borrowBook]
  · simp [lendInvariant, Book.returnBook]
  · intro hren hinv
    unfold Book.renewBook at hren
    split at hren
    · simp at hren
    · cases hdue : b.dueDate with
      | none => rw [hdue] at hren; simp at hren
      | some d =>
          rw [hdue] at hren
          simp only [Except.ok.injEq] at hren
          subst hren
          obtain ⟨h1, h2⟩ := hinv
          have hbav : b.available = false := by
            rcases Bool.eq_false_or_eq_true b.available with ht | hf
            · exact absurd ((h2.mp ht).2.2) (by rw [hdue]; simp)
            · exact hf
          constructor
          · simp only [lendInvariant]
            rw [hbav] at h1 ⊢
            simpa using h1
          · simp [hbav]
  · intro hav hst hbb hba hdd hok
    unfold booksController.createBook at hok
    split at hok
    · simp at hok
    · simp only [] at hok
      split at hok
      · simp at hok
      · split at hok
        · split at hok
          · simp at hok
          · simp only [Except.ok.injEq] at hok
            subst hok
            simp [lendInvariant, booksController.mkBook, hav, hst, hbb, hba, hdd]
        · simp only [Except.ok.injEq] at hok
          subst hok
          simp [lendInvariant, booksController.mkBook, hav, hst, hbb, hba, hdd]

/-- A well-formed creation request used as the concrete creation instance. -/
def c1wreq : booksController.CreateReq :=
  { emptyCreateReq with
    title := some "Fahrenheit 451"
    author := some "Ray Bradbury" }

/-- Witness for C1 (amended) at concrete transitions: a borrow, a return and
a successful renew of a concrete borrowed record, and a concrete default
creation. -/
theorem lending_agreement_witness :
    lendInvariant (sampleBorrowed.borrowBook "u2" "Bob" "bob@example.com" (some 1) 9) ∧
    lendInvariant sampleBorrowed.returnBook ∧
    lendInvariant sampleRenewed ∧
    lendInvariant (booksController.mkBook c1wreq 3) := by
  have h := lending_agreement_after_transitions sampleBorrowed sampleRenewed
    "u2" "Bob" "bob@example.com" (some 1) none 9 3 [] c1wreq 1
    (booksController.mkBook c1wreq 3)
  exact ⟨h.1, h.2.1, h.2.2.1 (by rfl) (by decide),
    h.2.2.2 rfl rfl rfl rfl rfl rfl⟩

/-! ## C7: renewalCount never exceeds maxRenewals -/

/-- A creation request whose body supplies renewalCount=3 and maxRenewals=2;
no cross-field validation in the schema rejects it. -/
def c7req : booksController.CreateReq :=
  { emptyCreateReq with
    title := some "Brave New World"
    author := some "Aldous Huxley"
    renewalCount := some 3
    maxRenewals := some 2 }

/-- C7 counterexample: Create is one of the operations the claim quantifies
over, and a creation request supplying renewalCount=3 with maxRenewals=2
succeeds, producing a reachable record with renewalCount exceeding
maxRenewals. -/
theorem renewal_cap_counterexample :
    (booksController.createBook [] c7req 0 1).2 =
      Except.ok (booksController.mkBook c7req 0) ∧
    (booksController.mkBook c7req 0).maxRenewals <
      (booksController.mkBook c7req 0).renewalCount := by
  constructor
  · rfl
  · decide

/-- C7 (amended): the three lending transitions respect the renewal cap:
Borrow preserves renewalCount less-or-equal maxRenewals, Return and a
successful Renew establish it outright, and Create establishes it when the
request does not supply renewalCount or maxRenewals; a creation request
supplying those fields explicitly can violate it. -/
theorem renewal_cap_after_transitions (b b2 : Book)
    (uid un ue : String) (w w2 : Option Nat) (now now2 : Nat)
    (store : Store) (r : booksController.CreateReq) (nextId : Nat) (c : Book) :
    (b.renewalCount ≤ b.maxRenewals →
      (b.borrowBook uid un ue w now).renewalCount ≤
        (b.borrowBook uid un ue w now).maxRenewals) ∧
    b.returnBook.renewalCount ≤ b.returnBook.maxRenewals ∧
    (b.renewBook w2 = Except.ok b2 → b2.renewalCount ≤ b2.maxRenewals) ∧
    (r.renewalCount = none → r.maxRenewals = none →
      (booksController.createBook store r now2 nextId).2 = Except.ok c →
      c.renewalCount ≤ c.maxRenewals) := by
  refine ⟨?_, ?_, ?_, ?_⟩
  · intro h
    simpa [Book.borrowBook] using h
  · simp [Book.returnBook]
  · intro hren
    unfold Book.renewBook at hren
    split at hren
    case isTrue => simp at hren
    case isFalse hlt =>
      cases hdue : b.dueDate with
      | none => rw [hdue] at hren; simp at hren
      | some d =>
          rw [hdue] at hren
          simp only [Except.ok.injEq] at hren
          subst hren
          simpa using Nat.lt_of_not_le hlt
  · intro hrc hmx hok
    unfold booksController.createBook at hok
    split at hok
    · simp at hok
    · simp only [] at hok
      split at hok
      · simp at hok
      · split at hok
        · split at hok
          · simp at hok
          · simp only [Except.ok.injEq] at hok
            subst hok
            simp [booksController.mkBook, hrc, hmx]
        · simp only [Except.ok.injEq] at hok
          subst hok
          simp [booksController.mkBook, hrc, hmx]

/-- A well-formed creation request leaving the renewal fields to their
defaults. -/
def c7wreq : booksController.CreateReq :=
  { emptyCreateReq with
    title := some "The Hobbit"
    author := some "J. R. R. Tolkien" }

/-- Witness for C7 (amended) at concrete transitions. -/
theorem renewal_cap_witness :
    (sampleBorrowed.borrowBook "u3" "Cal" "cal@example.com" none 4).renewalCount ≤
      (sampleBorrowed.borrowBook "u3" "Cal" "cal@example.com" none 4).maxRenewals ∧
    sampleBorrowed.returnBook.renewalCount ≤ sampleBorrowed.returnBook.maxRenewals ∧
    sampleRenewed.renewalCount ≤ sampleRenewed.maxRenewals ∧
    (booksController.mkBook c7wreq 6).renewalCount ≤
      (booksController.mkBook c7wreq 6).maxRenewals := by
  have h := renewal_cap_after_transitions sampleBorrowed sampleRenewed
    "u3" "Cal" "cal@example.com" none none 4 6 [] c7wreq 1
    (booksController.mkBook c7wreq 6)
  exact ⟨h.1 (by decide), h.2.1, h.2.2.1 (by rfl),
    h.2.2.2 rfl rfl rfl⟩

/-! ## C2: the Renew operation -/

/-- C2: renewing through the controller fails with NotFound when the id does
not resolve; on a record at the renewal cap it fails with
RenewalLimitExceeded leaving the store unchanged; on a record below the cap
without a dueDate it fails with NotBorrowed; on a record below the cap with a
dueDate it advances dueDate by exactly weeks*7 days (weeks defaulting to 2
when the body omits it) and increments renewalCount by exactly 1, saving the
updated record. -/
theorem renewBook_spec (store : Store) (id : Nat) (w : Option Nat)
    (b : Book) (d : Nat) :
    (findBook store id = none →
      booksController.renewBook store id w = (store, Except.error ApiErr.notFound)) ∧
    (findBook store id = some b → b.maxRenewals ≤ b.renewalCount →
      booksController.renewBook store id w =
        (store, Except.error ApiErr.renewalLimitExceeded)) ∧
    (findBook store id = some b → b.renewalCount < b.maxRenewals →
      b.dueDate = none →
      booksController.renewBook store id w = (store, Except.error ApiErr.notBorrowed)) ∧
    (findBook store id = some b → b.renewalCount < b.maxRenewals →
      b.dueDate = some d →
      booksController.renewBook store id w =
        (saveBook store id
          { b with dueDate := some (d + (w.getD 2) * 7 * msPerDay)
                   renewalCount := b.renewalCount + 1 },
         Except.ok
          { b with dueDate := some (d + (w.getD 2) * 7 * msPerDay)
                   renewalCount := b.renewalCount + 1 })) := by
  refine ⟨?_, ?_, ?_, ?_⟩
  · intro h
    simp [booksController.renewBook, h]
  · intro h hc
    simp [booksController.renewBook, Book.renewBook, h, hc]
  · intro h hc hd
    have hnc : ¬ b.maxRenewals ≤ b.renewalCount := Nat.not_le.mpr hc
    simp [booksController.renewBook, Book.renewBook, h, hnc, hd]
  · intro h hc hd
    have hnc : ¬ b.maxRenewals ≤ b.renewalCount := Nat.not_le.mpr hc
    simp [booksController.renewBook, Book.renewBook, h, hnc, hd]

/-- A record at the renewal cap while borrowed. -/
def cappedBook : Book :=
  { sampleBorrowed with renewalCount := 2 }

/-- Witness for C2 at concrete stores: an empty store, a capped record, a
non-borrowed record below the cap, and a borrowed record below the cap. -/
theorem renewBook_spec_witness :
    booksController.renewBook [] 1 none = ([], Except.error ApiErr.notFound) ∧
    booksController.renewBook [(1, cappedBook)] 1 none =
      ([(1, cappedBook)], Except.error ApiErr.renewalLimitExceeded) ∧
    booksController.renewBook [(1, sampleBook)] 1 none =
      ([(1, sampleBook)], Except.error ApiErr.notBorrowed) ∧
    booksController.renewBook [(1, sampleBorrowed)] 1 (some 1) =
      (saveBook [(1, sampleBorrowed)] 1
        { sampleBorrowed with
            dueDate := some ((5 + 3 * 7 * msPerDay) + 1 * 7 * msPerDay)
            renewalCount := sampleBorrowed.renewalCount + 1 },
       Except.ok
        { sampleBorrowed with
            dueDate := some ((5 + 3 * 7 * msPerDay) + 1 * 7 * msPerDay)
            renewalCount := sampleBorrowed.renewalCount + 1 }) := by
  refine ⟨(renewBook_spec [] 1 none sampleBook 0).1 rfl,
    (renewBook_spec [(1, cappedBook)] 1 none cappedBook 0).2.1 rfl (by decide),
    (renewBook_spec [(1, sampleBook)] 1 none sampleBook 0).2.2.1 rfl (by decide) rfl,
    (renewBook_spec [(1, sampleBorrowed)] 1 (some 1) sampleBorrowed
      (5 + 3 * 7 * msPerDay)).2.2.2 rfl (by decide) (by rfl)⟩

/-! ## C10: the renewal cap is checked before the borrowed check -/

/-- C10: for a resolved record, a record without a dueDate whose renewalCount
has reached maxRenewals fails with RenewalLimitExceeded rather than
NotBorrowed, and NotBorrowed arises only on a record whose dueDate is absent
while renewalCount is strictly below maxRenewals. -/
theorem renew_cap_checked_first (store : Store) (id : Nat) (w : Option Nat)
    (b : Book) (hfind : findBook store id = some b) :
    (b.dueDate = none → b.maxRenewals ≤ b.renewalCount →
      booksController.renewBook store id w =
        (store, Except.error ApiErr.renewalLimitExceeded)) ∧
    ((booksController.renewBook store id w).2 = Except.error ApiErr.notBorrowed →
      b.dueDate = none ∧ b.renewalCount < b.maxRenewals) := by
  constructor
  · intro _ hc
    simp [booksController.renewBook, Book.renewBook, hfind, hc]
  · intro hres
    by_cases hc : b.maxRenewals ≤ b.renewalCount
    · simp [booksController.renewBook, Book.renewBook, hfind, hc] at hres
    · cases hdue : b.dueDate with
      | none => exact ⟨rfl, Nat.lt_of_not_le hc⟩
      | some d =>
          simp [booksController.renewBook, Book.renewBook, hfind, hc, hdue] at hres

/-- A record with dueDate absent but renewalCount above the cap. -/
def c10book : Book :=
  { sampleBook with renewalCount := 5 }

/-- Witness for C10 at a concrete record that is both at the cap and not
borrowed: the failure reported is RenewalLimitExceeded. -/
theorem renew_cap_checked_first_witness :
    booksController.renewBook [(2, c10book)] 2 none =
      ([(2, c10book)], Except.error ApiErr.renewalLimitExceeded) :=
  (renew_cap_checked_first [(2, c10book)] 2 none c10book rfl).1 rfl (by decide)

/-! ## C3: the Borrow operation on an available book -/

/-- C3: borrowing a resolved available record with the three borrower fields
present sets available=false and status Borrowed, stores the three borrower
fields in borrowedBy, sets borrowedAt and borrowDate to now, and sets dueDate
to now plus weeks*7 days with weeks defaulting to 3 when the body omits it;
the updated record is saved. -/
theorem borrowBook_spec (store : Store) (id : Nat) (uid un ue : String)
    (w : Option Nat) (now : Nat) (b : Book)
    (hu : uid ≠ "") (hn : un ≠ "") (he : ue ≠ "")
    (hfind : findBook store id = some b) (hav : b.available = true) :
    booksController.borrowBook store id ⟨some uid, some un, some ue, w⟩ now =
      (saveBook store id
        { b with available := false
                 status := Status.borrowed
                 borrowedBy := some ⟨uid, un, ue⟩
                 borrowedAt := some now
                 borrowDate := some now
                 dueDate := some (now + (w.getD 3) * 7 * msPerDay) },
       Except.ok
        { b with available := false
                 status := Status.borrowed
                 borrowedBy := some ⟨uid, un, ue⟩
                 borrowedAt := some now
                 borrowDate := some now
                 dueDate := some (now + (w.getD 3) * 7 * msPerDay) }) := by
  simp [booksController.borrowBook, Book.borrowBook, hu, hn, he, hfind, hav]

/-- Witness for C3 at a concrete available record and concrete borrower. -/
theorem borrowBook_spec_witness :
    booksController.borrowBook [(1, sampleBook)] 1
      ⟨some "u1", some "Ann", some "ann@example.com", none⟩ 5 =
      (saveBook [(1, sampleBook)] 1
        { sampleBook with
            available := false
            status := Status.borrowed
            borrowedBy := some ⟨"u1", "Ann", "ann@example.com"⟩
            borrowedAt := some 5
            borrowDate := some 5
            dueDate := some (5 + 3 * 7 * msPerDay) },
       Except.ok
        { sampleBook with
            available := false
            status := Status.borrowed
            borrowedBy := some ⟨"u1", "Ann", "ann@example.com"⟩
            borrowedAt := some 5
            borrowDate := some 5
            dueDate := some (5 + 3 * 7 * msPerDay) }) := by
  have h := borrowBook_spec [(1, sampleBook)] 1 "u1" "Ann" "ann@example.com"
    none 5 sampleBook (by decide) (by decide) (by decide) rfl rfl
  simpa using h

/-! ## C5: failure cases of the Borrow operation -/

/-- C5: borrowing with any of the three borrower fields missing (or empty,
which the falsy check of the controller treats the same) fails with
InvalidInput; with the borrower fields present and an unresolved id it fails
with NotFound; with the borrower fields present and a resolved record whose
available field is false it fails with NotAvailable; every failure leaves the
store unchanged. -/
theorem borrowBook_failures (store : Store) (id : Nat)
    (r : booksController.BorrowReq) (now : Nat) (b : Book) :
    ((r.userId.getD "" = "" ∨ r.userName.getD "" = "" ∨ r.userEmail.getD "" = "") →
      booksController.borrowBook store id r now =
        (store, Except.error ApiErr.invalidInput)) ∧
    (r.userId.getD "" ≠ "" → r.userName.getD "" ≠ "" → r.userEmail.getD "" ≠ "" →
      findBook store id = none →
      booksController.borrowBook store id r now =
        (store, Except.error ApiErr.notFound)) ∧
    (r.userId.getD "" ≠ "" → r.userName.getD "" ≠ "" → r.userEmail.getD "" ≠ "" →
      findBook store id = some b → b.available = false →
      booksController.borrowBook store id r now =
        (store, Except.error ApiErr.notAvailable)) := by
  refine ⟨?_, ?_, ?_⟩
  · intro h
    unfold booksController.borrowBook
    rw [if_pos h]
  · intro hu hn he hfind
    simp [booksController.borrowBook, hu, hn, he, hfind]
  · intro hu hn he hfind hav
    simp [booksController.borrowBook, hu, hn, he, hfind, hav]

/-- Witness for C5 at concrete requests: a missing borrower name, a
well-formed request against an empty store, and a well-formed request against
an already-borrowed record. -/
theorem borrowBook_failures_witness :
    booksController.borrowBook [(1, sampleBook)] 1
      ⟨some "u1", none, some "ann@example.com", none⟩ 5 =
      ([(1, sampleBook)], Except.error ApiErr.invalidInput) ∧
    booksController.borrowBook [] 1
      ⟨some "u1", some "Ann", some "ann@example.com", none⟩ 5 =
      ([], Except.error ApiErr.notFound) ∧
    booksController.borrowBook [(1, sampleBorrowed)] 1
      ⟨some "u2", some "Bob", some "bob@example.com", none⟩ 5 =
      ([(1, sampleBorrowed)], Except.error ApiErr.notAvailable) :=
  ⟨(borrowBook_failures [(1, sampleBook)] 1
      ⟨some "u1", none, some "ann@example.com", none⟩ 5 sampleBook).1
      (Or.inr (Or.inl rfl)),
   (borrowBook_failures [] 1
      ⟨some "u1", some "Ann", some "ann@example.com", none⟩ 5 sampleBook).2.1
      (by decide) (by decide) (by decide) rfl,
   (borrowBook_failures [(1, sampleBorrowed)] 1
      ⟨some "u2", some "Bob", some "bob@example.com", none⟩ 5 sampleBorrowed).2.2
      (by decide) (by decide) (by decide) rfl (by rfl)⟩

/-! ## C4: Borrow then Return round trip -/

/-- An available record whose status is Reserved: available=true while the
status enum holds a value other than Available. -/
def c4book : Book :=
  { sampleBook with status := Status.reserved }

/-- C4 counterexample: the claim quantifies over every available book, but an
available record whose status is Reserved (creatable, since the schema enum
admits it and creation passes the body through) does not come back to its
pre-borrow state: Return forces status to Available. -/
theorem borrow_return_roundtrip_counterexample :
    c4book.available = true ∧
    (c4book.borrowBook "u1" "Ann" "ann@example.com" none 5).returnBook ≠
      { c4book with renewalCount := 0 } := by
  constructor
  · rfl
  · decide

/-- C4 (amended): for every available book whose lending-state encodings
agree (status Available, borrowedBy, borrowedAt and dueDate absent) and whose
borrowDate is also absent, applying Borrow and then Return yields a record
equal to the pre-borrow record in every field except that renewalCount is
reset to 0. -/
theorem borrow_return_roundtrip (b : Book) (uid un ue : String)
    (w : Option Nat) (now : Nat)
    (hav : b.available = true) (hinv : lendInvariant b) (hbd : b.borrowDate = none) :
    (b.borrowBook uid un ue w now).returnBook = { b with renewalCount := 0 } := by
  obtain ⟨h1, h2⟩ := hinv
  have hst := h1.mp hav
  obtain ⟨hbb, hba, hdd⟩ := h2.mp hav
  cases b
  simp_all [Book.borrowBook, Book.returnBook]

/-- Witness for C4 (amended) at a concrete available record. -/
theorem borrow_return_roundtrip_witness :
    (sampleBook.borrowBook "u9" "Eve" "eve@example.com" (some 2) 11).returnBook =
      { sampleBook with renewalCount := 0 } :=
  borrow_return_roundtrip sampleBook "u9" "Eve" "eve@example.com" (some 2) 11
    rfl (by decide) rfl

/-! ## C9: ISBN uniqueness at creation -/

/-- A string whose trim is nonempty is itself nonempty. -/
theorem ne_empty_of_strTrim_ne_empty {s : String} (h : strTrim s ≠ "") : s ≠ "" := by
  intro hs
  subst hs
  exact h rfl

/-- C9: when a record with a given present ISBN already exists in the store,
creating a second book carrying the same ISBN (after trimming) fails with
DuplicateISBN and adds no record, and creating two books that both omit the
ISBN succeeds for both, appending both records — in each case for a request
that passes the mongoose validators: trimmed title and author nonempty and
within their maxlength caps (200 and 100), description within its cap
(1000). -/
theorem createBook_isbn_unique (store : Store)
    (r1 r2 : booksController.CreateReq) (s : String)
    (now1 now2 nid1 nid2 : Nat) :
    (s ≠ "" → store.any (fun p => p.2.isbn = some s) = true →
      r1.isbn.map strTrim = some s →
      strTrim (r1.title.getD "") ≠ "" → strTrim (r1.author.getD "") ≠ "" →
      (strTrim (r1.title.getD "")).length ≤ 200 →
      (strTrim (r1.author.getD "")).length ≤ 100 →
      ((r1.description.map strTrim).getD "").length ≤ 1000 →
      booksController.createBook store r1 now1 nid1 =
        (store, Except.error ApiErr.duplicateIsbn)) ∧
    (r1.isbn = none → r2.isbn = none →
      strTrim (r1.title.getD "") ≠ "" → strTrim (r1.author.getD "") ≠ "" →
      (strTrim (r1.title.getD "")).length ≤ 200 →
      (strTrim (r1.author.getD "")).length ≤ 100 →
      ((r1.description.map strTrim).getD "").length ≤ 1000 →
      strTrim (r2.title.getD "") ≠ "" → strTrim (r2.author.getD "") ≠ "" →
      (strTrim (r2.title.getD "")).length ≤ 200 →
      (strTrim (r2.author.getD "")).length ≤ 100 →
      ((r2.description.map strTrim).getD "").length ≤ 1000 →
      booksController.createBook store r1 now1 nid1 =
        (store ++ [(nid1, booksController.mkBook r1 now1)],
         Except.ok (booksController.mkBook r1 now1)) ∧
      booksController.createBook (store ++ [(nid1, booksController.mkBook r1 now1)])
          r2 now2 nid2 =
        ((store ++ [(nid1, booksController.mkBook r1 now1)]) ++
            [(nid2, booksController.mkBook r2 now2)],
         Except.ok (booksController.mkBook r2 now2))) := by
  constructor
  · intro _ hdup hisbn ht ha hlt hla hld
    have ht0 := ne_empty_of_strTrim_ne_empty ht
    have ha0 := ne_empty_of_strTrim_ne_empty ha
    have hbisbn : (booksController.mkBook r1 now1).isbn = some s := by
      simpa [booksController.mkBook] using hisbn
    simp only [booksController.createBook]
    rw [if_neg (by simp [ht0, ha0])]
    rw [if_neg (by simp [booksController.mkBook, ht, ha, Nat.not_lt.mpr hlt,
      Nat.not_lt.mpr hla, Nat.not_lt.mpr hld])]
    rw [hbisbn]
    simp [hdup]
  · intro h1i h2i ht1 ha1 hlt1 hla1 hld1 ht2 ha2 hlt2 hla2 hld2
    have ht10 := ne_empty_of_strTrim_ne_empty ht1
    have ha10 := ne_empty_of_strTrim_ne_empty ha1
    have ht20 := ne_empty_of_strTrim_ne_empty ht2
    have ha20 := ne_empty_of_strTrim_ne_empty ha2
    have hbisbn1 : (booksController.mkBook r1 now1).isbn = none := by
      simp [booksController.mkBook, h1i]
    have hbisbn2 : (booksController.mkBook r2 now2).isbn = none := by
      simp [booksController.mkBook, h2i]
    constructor
    · simp only [booksController.createBook]
      rw [if_neg (by simp [ht10, ha10])]
      rw [if_neg (by simp [booksController.mkBook, ht1, ha1, Nat.not_lt.mpr hlt1,
        Nat.not_lt.mpr hla1, Nat.not_lt.mpr hld1])]
      rw [hbisbn1]
    · simp only [booksController.createBook]
      rw [if_neg (by simp [ht20, ha20])]
      rw [if_neg (by simp [booksController.mkBook, ht2, ha2, Nat.not_lt.mpr hlt2,
        Nat.not_lt.mpr hla2, Nat.not_lt.mpr hld2])]
      rw [hbisbn2]

/-- An existing record holding a present ISBN. -/
def c9existing : Book :=
  { sampleBook with isbn := some "978-0-452-28423-4" }

/-- A creation request carrying the same ISBN as c9existing. -/
def c9dupReq : booksController.CreateReq :=
  { emptyCreateReq with
    title := some "1984"
    author := some "George Orwell"
    isbn := some "978-0-452-28423-4" }

/-- A creation request omitting the ISBN. -/
def c9reqA : booksController.CreateReq :=
  { emptyCreateReq with
    title := some "Emma"
    author := some "Jane Austen" }

/-- A second creation request omitting the ISBN. -/
def c9reqB : booksController.CreateReq :=
  { emptyCreateReq with
    title := some "Persuasion"
    author := some "Jane Austen" }

/-- Witness for C9: a concrete duplicate-ISBN rejection and a concrete pair
of ISBN-less creations that both succeed. -/
theorem createBook_isbn_unique_witness :
    booksController.createBook [(1, c9existing)] c9dupReq 4 2 =
      ([(1, c9existing)], Except.error ApiErr.duplicateIsbn) ∧
    (booksController.createBook [] c9reqA 4 1 =
      ([] ++ [(1, booksController.mkBook c9reqA 4)],
       Except.ok (booksController.mkBook c9reqA 4)) ∧
     booksController.createBook ([] ++ [(1, booksController.mkBook c9reqA 4)])
        c9reqB 5 2 =
      (([] ++ [(1, booksController.mkBook c9reqA 4)]) ++
          [(2, booksController.mkBook c9reqB 5)],
       Except.ok (booksController.mkBook c9reqB 5))) :=
  ⟨(createBook_isbn_unique [(1, c9existing)] c9dupReq emptyCreateReq
      "978-0-452-28423-4" 4 0 2 0).1
      (by decide) (by rfl) (by rfl) (by decide) (by decide)
      (by decide) (by decide) (by decide),
   (createBook_isbn_unique [] c9reqA c9reqB "x" 4 5 1 2).2
      rfl rfl (by decide) (by decide) (by decide) (by decide) (by decide)
      (by decide) (by decide) (by decide) (by decide) (by decide)⟩

/-! ## C8: the catalogue List contract -/

/-- The newest-created-first order on records: the later element was created
no later than the earlier one. -/
def createdGe (a c : Book) : Prop := c.createdAt ≤ a.createdAt

/-- Inserting into a list is a permutation of consing. -/
theorem insertDesc_perm (b : Book) (l : List Book) :
    (booksController.insertDesc b l).Perm (b :: l) := by
  induction l with
  | nil => simp [booksController.insertDesc]
  | cons c cs ih =>
      unfold booksController.insertDesc
      split
      · exact List.Perm.refl _
      · exact (ih.cons c).trans (List.Perm.swap b c cs)

/-- The sort of getAllBooks is a permutation of its input. -/
theorem sortDesc_perm (l : List Book) : (booksController.sortDesc l).Perm l := by
  induction l with
  | nil => exact List.Perm.refl _
  | cons b bs ih =>
      simp only [booksController.sortDesc]
      exact (insertDesc_perm b (booksController.sortDesc bs)).trans (ih.cons b)

/-- Insertion preserves the newest-created-first order. -/
theorem insertDesc_sorted (b : Book) (l : List Book)
    (hl : l.Pairwise createdGe) :
    (booksController.insertDesc b l).Pairwise createdGe := by
  induction l with
  | nil => simp [booksController.insertDesc, createdGe]
  | cons c cs ih =>
      obtain ⟨hc, hcs⟩ := List.pairwise_cons.mp hl
      unfold booksController.insertDesc
      split
      case isTrue h =>
        refine List.Pairwise.cons ?_ hl
        intro x hx
        rcases List.mem_cons.mp hx with rfl | hx2
        · exact h
        · exact Nat.le_trans (hc x hx2) h
      case isFalse h =>
        refine List.Pairwise.cons ?_ (ih hcs)
        intro x hx
        have hx2 : x ∈ b :: cs := (insertDesc_perm b cs).mem_iff.mp hx
        rcases List.mem_cons.mp hx2 with rfl | hx3
        · exact Nat.le_of_lt (Nat.lt_of_not_le h)
        · exact hc x hx3

/-- The sort of getAllBooks produces a newest-created-first list. -/
theorem sortDesc_sorted (l : List Book) :
    (booksController.sortDesc l).Pairwise createdGe := by
  induction l with
  | nil => simp [booksController.sortDesc]
  | cons b bs ih =>
      simp only [booksController.sortDesc]
      exact insertDesc_sorted b _ ih

/-- The filter semantics stated the way the specification words them: the
conjunction of the specified constraints, an unspecified (absent or, for the
string parameters, falsy) filter constraining nothing. -/
def specMatches (f : booksController.ListFilters) (b : Book) : Bool :=
  (decide (f.q.getD "" = "") || booksController.textMatch (f.q.getD "") b) &&
  (decide (f.category.getD "" = "") || decide (b.category = f.category.getD "")) &&
  (decide (f.genre.getD "" = "") || decide (b.genre = f.genre.getD "")) &&
  (match f.available with
   | none => true
   | some s => decide (b.available = decide (s = "true"))) &&
  (decide (f.status.getD "" = "") ||
    decide (booksController.statusStr b.status = f.status.getD ""))

/-- The query object built by getAllBooks, computed field by field: each
truthy string filter lands in its field, a defined available parameter lands
as the boolean comparison with the string true. -/
theorem buildQuery_eq (f : booksController.ListFilters) :
    booksController.buildQuery f =
      ⟨if f.q.getD "" ≠ "" then f.q else none,
       if f.category.getD "" ≠ "" then f.category else none,
       if f.genre.getD "" ≠ "" then f.genre else none,
       f.available.map (fun s => decide (s = "true")),
       if f.status.getD "" ≠ "" then f.status else none⟩ := by
  obtain ⟨q, cat, g, av, st⟩ := f
  simp only [booksController.buildQuery]
  cases av <;> split_ifs <;> rfl

set_option maxHeartbeats 1600000 in
/-- The query object built by getAllBooks matches a record exactly when the
record satisfies the conjunction of the specified filters. -/
theorem matches_buildQuery (f : booksController.ListFilters) (b : Book) :
    booksController.matchesQuery (booksController.buildQuery f) b = specMatches f b := by
  obtain ⟨q, cat, g, av, st⟩ := f
  rw [buildQuery_eq]
  cases q <;> cases cat <;> cases g <;> cases av <;> cases st <;>
    simp only [booksController.matchesQuery, specMatches] <;>
    split_ifs <;>
    simp_all

/-- The filter configuration selecting available=true and nothing else. -/
def availTrueOnly : booksController.ListFilters :=
  ⟨none, none, none, some "true", none⟩

/-- C8: for every store contents and filter configuration, List returns
exactly the records satisfying the conjunction of the specified filters
(unspecified filters constraining nothing), as a list sorted by creation time
descending, with a count equal to the number of matches; in particular the
configuration with available=true returns exactly the records with
available true. -/
theorem getAllBooks_spec (store : Store) (f : booksController.ListFilters) :
    (booksController.getAllBooks store f).1 =
      (store.filter fun p => specMatches f p.2).length ∧
    ((booksController.getAllBooks store f).2).Perm
      ((store.filter fun p => specMatches f p.2).map Prod.snd) ∧
    ((booksController.getAllBooks store f).2).Pairwise createdGe ∧
    ((booksController.getAllBooks store availTrueOnly).2).Perm
      ((store.filter fun p => p.2.available).map Prod.snd) := by
  have hfilter :
      (store.filter fun p =>
        booksController.matchesQuery (booksController.buildQuery f) p.2) =
        store.filter fun p => specMatches f p.2 :=
    List.filter_congr (fun p _ => matches_buildQuery f p.2)
  have hperm : ((booksController.getAllBooks store f).2).Perm
      ((store.filter fun p => specMatches f p.2).map Prod.snd) := by
    simp only [booksController.getAllBooks]
    rw [hfilter]
    exact sortDesc_perm _
  refine ⟨?_, hperm, ?_, ?_⟩
  · have hlen := hperm.length_eq
    simpa [booksController.getAllBooks, List.length_map] using hlen
  · simp only [booksController.getAllBooks]
    exact sortDesc_sorted _
  · have havail :
        (store.filter fun p =>
          booksController.matchesQuery (booksController.buildQuery availTrueOnly) p.2) =
          store.filter fun p => p.2.available := by
      apply List.filter_congr
      intro p _
      cases hb : p.2.available <;>
        simp [booksController.matchesQuery, booksController.buildQuery,
          availTrueOnly, hb]
    simp only [booksController.getAllBooks]
    rw [havail]
    exact sortDesc_perm _
